import Mathlib

/-!
Shallow embedding of `src/llm/models.py`: the model catalog
(`AVAILABLE_MODELS`, `LLM_ORDER`, `get_model_info`) and the client
factory (`get_model`).  Python values are modelled as follows:
strings as `String`, the `ModelProvider` str-enum as an inductive
type together with its external string `value`, the pydantic
`LLMModel` record as a structure, the process environment as a
function `String → Option String` (`os.getenv` returns `None` for an
unset variable), a constructed langchain chat client as a record of
the constructor arguments actually passed by the source, a raised
`ValueError` as an explicit result constructor carrying the message,
and `print` diagnostics as an output list of lines.
-/

namespace Models

/-- The `ModelProvider` str-enum: the closed set of supported providers. -/
inductive ModelProvider
  | ANTHROPIC
  | DEEPSEEK
  | GEMINI
  | GROQ
  | OPENAI
  | OPENROUTER
deriving DecidableEq

/-- External string value of each enum member (`ModelProvider.X.value`). -/
def ModelProvider.value : ModelProvider → String
  | .ANTHROPIC => "Anthropic"
  | .DEEPSEEK => "DeepSeek"
  | .GEMINI => "Gemini"
  | .GROQ => "Groq"
  | .OPENAI => "OpenAI"
  | .OPENROUTER => "OpenRouter"

/-- The `LLMModel` pydantic record: one catalog descriptor. -/
structure LLMModel where
  display_name : String
  model_name : String
  provider : ModelProvider
deriving DecidableEq

/-- `LLMModel.to_choice_tuple`: `(display_name, model_name, provider.value)`. -/
def LLMModel.to_choice_tuple (m : LLMModel) : String × String × String :=
  (m.display_name, m.model_name, m.provider.value)

/-- Python `str.startswith`, modelled on the character sequence of the
string (true iff the characters of `pre` are a prefix of those of `s`). -/
def str_startswith (s pre : String) : Bool :=
  pre.data.isPrefixOf s.data

/-- `LLMModel.is_deepseek`: `model_name.startswith("deepseek")`. -/
def LLMModel.is_deepseek (m : LLMModel) : Bool :=
  str_startswith m.model_name "deepseek"

/-- `LLMModel.is_gemini`: `model_name.startswith("gemini")`. -/
def LLMModel.is_gemini (m : LLMModel) : Bool :=
  str_startswith m.model_name "gemini"

/-- `LLMModel.has_json_mode`: `not self.is_deepseek() and not self.is_gemini()`. -/
def LLMModel.has_json_mode (m : LLMModel) : Bool :=
  !m.is_deepseek && !m.is_gemini

/-- The literal `AVAILABLE_MODELS` table, in source order. -/
def AVAILABLE_MODELS : List LLMModel :=
  [ ⟨"[anthropic] claude-3.5-haiku", "claude-3-5-haiku-latest", .ANTHROPIC⟩,
    ⟨"[anthropic] claude-3.5-sonnet", "claude-3-5-sonnet-latest", .ANTHROPIC⟩,
    ⟨"[anthropic] claude-3.7-sonnet", "claude-3-7-sonnet-latest", .ANTHROPIC⟩,
    ⟨"[deepseek] deepseek-r1", "deepseek-reasoner", .DEEPSEEK⟩,
    ⟨"[deepseek] deepseek-v3", "deepseek-chat", .DEEPSEEK⟩,
    ⟨"[gemini] gemini-2.0-flash", "gemini-2.0-flash", .GEMINI⟩,
    ⟨"[gemini] gemini-2.5-pro", "gemini-2.5-pro-exp-03-25", .GEMINI⟩,
    ⟨"[groq] llama-3.3 70b", "llama-3.3-70b-versatile", .GROQ⟩,
    ⟨"[openai] gpt-4.5", "gpt-4.5-preview", .OPENAI⟩,
    ⟨"[openai] gpt-4o", "gpt-4o", .OPENAI⟩,
    ⟨"[openai] o1", "o1", .OPENAI⟩,
    ⟨"[openai] o3-mini", "o3-mini", .OPENAI⟩,
    ⟨"[openrouter] gemini-2.5-pro-exp-03-25:free",
      "google/gemini-2.5-pro-exp-03-25:free", .OPENROUTER⟩,
    ⟨"[openrouter] deepseek-chat-v3-0324:free",
      "deepseek/deepseek-chat-v3-0324:free", .OPENROUTER⟩ ]

/-- `LLM_ORDER = [model.to_choice_tuple() for model in AVAILABLE_MODELS]`. -/
def LLM_ORDER : List (String × String × String) :=
  AVAILABLE_MODELS.map LLMModel.to_choice_tuple

/-- `get_model_info`: first catalog entry whose `model_name` equals the
argument, else `None` (`next((m for m in AVAILABLE_MODELS if ...), None)`). -/
def get_model_info (model_name : String) : Option LLMModel :=
  AVAILABLE_MODELS.find? (fun m => m.model_name == model_name)

/-- The process environment seen by `os.getenv`: an unset variable is `none`. -/
abbrev Env := String → Option String

/-- Python truthiness of `api_key` (`if not api_key`): an unset variable
(`None`) and the empty string are falsy, every other string is truthy. -/
def truthy : Option String → Bool
  | none => false
  | some s => decide (s ≠ "")

/-- Which langchain client class the factory constructed. -/
inductive ClientKind
  | ChatAnthropic
  | ChatDeepSeek
  | ChatGoogleGenerativeAI
  | ChatGroq
  | ChatOpenAI
deriving DecidableEq

/-- A constructed chat client, recorded as the constructor arguments the
source passes: the class, `model=`, `api_key=`, and the optional `base_url=`. -/
structure ChatClient where
  kind : ClientKind
  model : String
  api_key : String
  base_url : Option String
deriving DecidableEq

/-- Outcome of a `get_model` call: a returned client, a raised
`ValueError` carrying its message, or the implicit `None` return reached
when no `elif` branch matches. -/
inductive GetModelResult
  | client (c : ChatClient)
  | valueError (msg : String)
  | noneResult
deriving DecidableEq

/-- True exactly on the `valueError` outcome. -/
def GetModelResult.is_value_error : GetModelResult → Bool
  | .valueError _ => true
  | _ => false

/-- True exactly on the `client` outcome. -/
def GetModelResult.is_client : GetModelResult → Bool
  | .client _ => true
  | _ => false

/-- The `model_provider` argument as Python receives it: either a member
of the `ModelProvider` enum, or (since Python does not enforce the
annotation) any other value, compared by its string form because
`ModelProvider` is a str-enum. -/
inductive ProviderInput
  | tag (p : ModelProvider)
  | other (s : String)

/-- Resolves the argument against the `elif` equality chain of `get_model`:
an enum member matches itself; a plain string matches the member whose
`value` it equals (str-enum equality); anything else matches no branch. -/
def resolve_provider : ProviderInput → Option ModelProvider
  | .tag p => some p
  | .other s =>
      if s = "Anthropic" then some .ANTHROPIC
      else if s = "DeepSeek" then some .DEEPSEEK
      else if s = "Gemini" then some .GEMINI
      else if s = "Groq" then some .GROQ
      else if s = "OpenAI" then some .OPENAI
      else if s = "OpenRouter" then some .OPENROUTER
      else none

/-- The body of the matched `get_model` branch for each provider: read the
key from the environment; if falsy, print the diagnostic line and raise
`ValueError` with the literal source message; otherwise construct the
client with the model name, the key, and (for OPENROUTER only) the fixed
base URL.  The second component collects the printed lines. -/
def get_model_core (model_name : String) (p : ModelProvider) (env : Env) :
    GetModelResult × List String :=
  match p with
  | .GROQ =>
      let api_key := env "GROQ_API_KEY"
      if truthy api_key then
        (.client ⟨.ChatGroq, model_name, api_key.getD "", none⟩, [])
      else
        (.valueError "Groq API key not found.  Please make sure GROQ_API_KEY is set in your .env file.",
         ["API Key Error: Please make sure GROQ_API_KEY is set in your .env file."])
  | .OPENAI =>
      let api_key := env "OPENAI_API_KEY"
      if truthy api_key then
        (.client ⟨.ChatOpenAI, model_name, api_key.getD "", none⟩, [])
      else
        (.valueError "OpenAI API key not found.  Please make sure OPENAI_API_KEY is set in your .env file.",
         ["API Key Error: Please make sure OPENAI_API_KEY is set in your .env file."])
  | .ANTHROPIC =>
      let api_key := env "ANTHROPIC_API_KEY"
      if truthy api_key then
        (.client ⟨.ChatAnthropic, model_name, api_key.getD "", none⟩, [])
      else
        (.valueError "Anthropic API key not found.  Please make sure ANTHROPIC_API_KEY is set in your .env file.",
         ["API Key Error: Please make sure ANTHROPIC_API_KEY is set in your .env file."])
  | .DEEPSEEK =>
      let api_key := env "DEEPSEEK_API_KEY"
      if truthy api_key then
        (.client ⟨.ChatDeepSeek, model_name, api_key.getD "", none⟩, [])
      else
        (.valueError "DeepSeek API key not found.  Please make sure DEEPSEEK_API_KEY is set in your .env file.",
         ["API Key Error: Please make sure DEEPSEEK_API_KEY is set in your .env file."])
  | .GEMINI =>
      let api_key := env "GOOGLE_API_KEY"
      if truthy api_key then
        (.client ⟨.ChatGoogleGenerativeAI, model_name, api_key.getD "", none⟩, [])
      else
        (.valueError "Google API key not found.  Please make sure GOOGLE_API_KEY is set in your .env file.",
         ["API Key Error: Please make sure GOOGLE_API_KEY is set in your .env file."])
  | .OPENROUTER =>
      let api_key := env "OPENROUTER_API_KEY"
      if truthy api_key then
        (.client ⟨.ChatOpenAI, model_name, api_key.getD "", some "https://openrouter.ai/api/v1"⟩, [])
      else
        (.valueError "OpenRouter API key not found.  Please make sure OPENROUTER_API_KEY is set in your .env file.",
         ["API Key Error: Please make sure OPENROUTER_API_KEY is set in your .env file."])

/-- `get_model`: dispatch on the provider through the `elif` chain (via
`resolve_provider`, which is equivalent because the six enum values are
distinct strings); when no branch matches, fall off the end of the
function and return Python `None` with nothing printed. -/
def get_model (model_name : String) (model_provider : ProviderInput) (env : Env) :
    GetModelResult × List String :=
  match resolve_provider model_provider with
  | some p => get_model_core model_name p env
  | none => (.noneResult, [])

/-- The environment variable holding each provider API key, per the
credential table of the factory contract. -/
def expected_env_var : ModelProvider → String
  | .ANTHROPIC => "ANTHROPIC_API_KEY"
  | .DEEPSEEK => "DEEPSEEK_API_KEY"
  | .GEMINI => "GOOGLE_API_KEY"
  | .GROQ => "GROQ_API_KEY"
  | .OPENAI => "OPENAI_API_KEY"
  | .OPENROUTER => "OPENROUTER_API_KEY"

/-- The provider name under which each branch reports a missing key
(GEMINI reports it as the Google key). -/
def provider_err_name : ModelProvider → String
  | .ANTHROPIC => "Anthropic"
  | .DEEPSEEK => "DeepSeek"
  | .GEMINI => "Google"
  | .GROQ => "Groq"
  | .OPENAI => "OpenAI"
  | .OPENROUTER => "OpenRouter"

/-- The environment with every variable unset. -/
def emptyEnv : Env := fun _ => none

/-- C1: for every recognized provider whose mapped environment variable is
unset or empty at call time, `get_model` prints exactly one human-readable
diagnostic line and raises a `ValueError` whose message names the provider
and the expected variable; no client is constructed. -/
theorem get_model_credential_missing (p : ModelProvider) (name : String) (env : Env)
    (h : env (expected_env_var p) = none ∨ env (expected_env_var p) = some "") :
    get_model name (.tag p) env =
      (.valueError (provider_err_name p ++ " API key not found.  Please make sure "
          ++ expected_env_var p ++ " is set in your .env file."),
       ["API Key Error: Please make sure " ++ expected_env_var p
          ++ " is set in your .env file."]) ∧
    ∀ c, (get_model name (.tag p) env).1 ≠ GetModelResult.client c := by
  cases p <;> simp only [expected_env_var] at h <;> rcases h with h | h <;>
    simp [get_model, resolve_provider, get_model_core, expected_env_var,
      provider_err_name, truthy, h]

/-- C1 witness: with `OPENAI_API_KEY` unset, `get_model` for OPENAI raises
the OpenAI `ValueError` after printing the diagnostic. -/
theorem get_model_credential_missing_witness :
    (emptyEnv (expected_env_var .OPENAI) = none ∨
      emptyEnv (expected_env_var .OPENAI) = some "") ∧
    (get_model "gpt-4o" (.tag .OPENAI) emptyEnv =
      (.valueError (provider_err_name .OPENAI ++ " API key not found.  Please make sure "
          ++ expected_env_var .OPENAI ++ " is set in your .env file."),
       ["API Key Error: Please make sure " ++ expected_env_var .OPENAI
          ++ " is set in your .env file."]) ∧
     ∀ c, (get_model "gpt-4o" (.tag .OPENAI) emptyEnv).1 ≠ GetModelResult.client c) :=
  ⟨Or.inl rfl, get_model_credential_missing .OPENAI "gpt-4o" emptyEnv (Or.inl rfl)⟩

/-- C2 counterexample: for a provider value outside the six recognized
tags, `get_model` does not fail with any error: it returns the implicit
Python `None` (with no client and no diagnostic), even when every
environment variable is set. -/
theorem get_model_unrecognized_counterexample :
    get_model "gpt-4o" (.other "SomeFutureProvider") (fun _ => some "key")
      = (.noneResult, []) ∧
    (get_model "gpt-4o" (.other "SomeFutureProvider") (fun _ => some "key")).1.is_value_error
      = false ∧
    (get_model "gpt-4o" (.other "SomeFutureProvider") (fun _ => some "key")).1.is_client
      = false := by
  decide

/-- C2 amended: for any provider value that equals none of the six
recognized tags, `get_model` constructs no client and raises no error; it
falls through every branch and returns Python `None` with no diagnostic
output, for every environment. -/
theorem get_model_unrecognized_returns_none (name s : String) (env : Env)
    (h : ∀ p : ModelProvider, s ≠ p.value) :
    get_model name (.other s) env = (.noneResult, []) := by
  have h1 := h .ANTHROPIC
  have h2 := h .DEEPSEEK
  have h3 := h .GEMINI
  have h4 := h .GROQ
  have h5 := h .OPENAI
  have h6 := h .OPENROUTER
  simp only [ModelProvider.value] at h1 h2 h3 h4 h5 h6
  simp [get_model, resolve_provider, h1, h2, h3, h4, h5, h6]

/-- C2 amended witness: the concrete unrecognized value
"SomeFutureProvider" produces the `None` return. -/
theorem get_model_unrecognized_returns_none_witness :
    (∀ p : ModelProvider, "SomeFutureProvider" ≠ p.value) ∧
    get_model "gpt-4o" (.other "SomeFutureProvider") emptyEnv = (.noneResult, []) :=
  ⟨by intro p; cases p <;> decide,
   get_model_unrecognized_returns_none "gpt-4o" "SomeFutureProvider" emptyEnv
     (by intro p; cases p <;> decide)⟩

/-- C3: for every recognized provider whose mapped environment variable
holds a non-empty value, `get_model` returns a client (printing nothing)
whose configured model identifier is exactly the input and whose key is
the retrieved value. -/
theorem get_model_credential_success (p : ModelProvider) (name key : String) (env : Env)
    (hk : env (expected_env_var p) = some key) (hne : key ≠ "") :
    ∃ c : ChatClient,
      get_model name (.tag p) env = (.client c, []) ∧
      c.model = name ∧ c.api_key = key := by
  cases p <;> simp only [expected_env_var] at hk
  · exact ⟨⟨.ChatAnthropic, name, key, none⟩,
      by simp [get_model, resolve_provider, get_model_core, truthy, hk, hne], rfl, rfl⟩
  · exact ⟨⟨.ChatDeepSeek, name, key, none⟩,
      by simp [get_model, resolve_provider, get_model_core, truthy, hk, hne], rfl, rfl⟩
  · exact ⟨⟨.ChatGoogleGenerativeAI, name, key, none⟩,
      by simp [get_model, resolve_provider, get_model_core, truthy, hk, hne], rfl, rfl⟩
  · exact ⟨⟨.ChatGroq, name, key, none⟩,
      by simp [get_model, resolve_provider, get_model_core, truthy, hk, hne], rfl, rfl⟩
  · exact ⟨⟨.ChatOpenAI, name, key, none⟩,
      by simp [get_model, resolve_provider, get_model_core, truthy, hk, hne], rfl, rfl⟩
  · exact ⟨⟨.ChatOpenAI, name, key, some "https://openrouter.ai/api/v1"⟩,
      by simp [get_model, resolve_provider, get_model_core, truthy, hk, hne], rfl, rfl⟩

/-- C3 witness: with `GROQ_API_KEY="x"`, `get_model` for GROQ on
"llama-3.3-70b-versatile" returns a client carrying exactly that model
identifier and key. -/
theorem get_model_credential_success_witness :
    (fun v => if v = "GROQ_API_KEY" then some "x" else none : Env)
        (expected_env_var .GROQ) = some "x" ∧
    ("x" : String) ≠ "" ∧
    ∃ c : ChatClient,
      get_model "llama-3.3-70b-versatile" (.tag .GROQ)
          (fun v => if v = "GROQ_API_KEY" then some "x" else none) = (.client c, []) ∧
      c.model = "llama-3.3-70b-versatile" ∧ c.api_key = "x" :=
  ⟨rfl, by decide,
   get_model_credential_success .GROQ "llama-3.3-70b-versatile" "x"
     (fun v => if v = "GROQ_API_KEY" then some "x" else none) rfl (by decide)⟩

/-- C4: for every descriptor D in the catalog, `get_model_info` on
D.model_name returns exactly D (first match, exact case-sensitive
comparison), and on a name matching no entry it returns `none` (it is a
total function, so it never raises). -/
theorem get_model_info_lookup_correct :
    (∀ D ∈ AVAILABLE_MODELS, get_model_info D.model_name = some D) ∧
    get_model_info "nonexistent-id" = none := by
  decide

/-- C4 witness: looking up the first catalog entry by its model name
returns that entry. -/
theorem get_model_info_lookup_correct_witness :
    (⟨"[anthropic] claude-3.5-haiku", "claude-3-5-haiku-latest", .ANTHROPIC⟩ : LLMModel)
        ∈ AVAILABLE_MODELS ∧
    get_model_info "claude-3-5-haiku-latest" =
      some ⟨"[anthropic] claude-3.5-haiku", "claude-3-5-haiku-latest", .ANTHROPIC⟩ :=
  ⟨by decide,
   get_model_info_lookup_correct.1
     ⟨"[anthropic] claude-3.5-haiku", "claude-3-5-haiku-latest", .ANTHROPIC⟩ (by decide)⟩

/-- C5: for every descriptor (any model name, cataloged or not),
`has_json_mode` equals the negation of (`is_deepseek` or `is_gemini`). -/
theorem has_json_mode_derivation (m : LLMModel) :
    m.has_json_mode = !(m.is_deepseek || m.is_gemini) := by
  cases hd : m.is_deepseek <;> cases hg : m.is_gemini <;>
    simp [LLMModel.has_json_mode, hd, hg]

/-- C6: for every descriptor, `is_deepseek` holds iff the model name
starts with the literal prefix "deepseek" and `is_gemini` holds iff it
starts with "gemini" (regardless of the provider tag); and on every
shipped catalog entry the two flags are never both true. -/
theorem family_classification :
    (∀ m : LLMModel,
      (m.is_deepseek = true ↔ str_startswith m.model_name "deepseek" = true) ∧
      (m.is_gemini = true ↔ str_startswith m.model_name "gemini" = true)) ∧
    ∀ D ∈ AVAILABLE_MODELS, ¬(D.is_deepseek = true ∧ D.is_gemini = true) := by
  exact ⟨fun m => ⟨Iff.rfl, Iff.rfl⟩, by decide⟩

/-- C6 witness: the shipped deepseek-r1 entry is in the catalog and is not
classified as both families at once. -/
theorem family_classification_witness :
    (⟨"[deepseek] deepseek-r1", "deepseek-reasoner", .DEEPSEEK⟩ : LLMModel)
        ∈ AVAILABLE_MODELS ∧
    ¬((⟨"[deepseek] deepseek-r1", "deepseek-reasoner", .DEEPSEEK⟩ : LLMModel).is_deepseek = true ∧
      (⟨"[deepseek] deepseek-r1", "deepseek-reasoner", .DEEPSEEK⟩ : LLMModel).is_gemini = true) :=
  ⟨by decide,
   family_classification.2
     ⟨"[deepseek] deepseek-r1", "deepseek-reasoner", .DEEPSEEK⟩ (by decide)⟩

/-- C7: `model_name` is a unique key across the catalog: two distinct
catalog entries never share a model name. -/
theorem model_name_unique :
    ∀ A ∈ AVAILABLE_MODELS, ∀ B ∈ AVAILABLE_MODELS, A ≠ B →
      A.model_name ≠ B.model_name := by
  decide

/-- C7 witness: the first two catalog entries are distinct and carry
distinct model names. -/
theorem model_name_unique_witness :
    (⟨"[anthropic] claude-3.5-haiku", "claude-3-5-haiku-latest", .ANTHROPIC⟩ : LLMModel)
        ∈ AVAILABLE_MODELS ∧
    (⟨"[anthropic] claude-3.5-sonnet", "claude-3-5-sonnet-latest", .ANTHROPIC⟩ : LLMModel)
        ∈ AVAILABLE_MODELS ∧
    (⟨"[anthropic] claude-3.5-haiku", "claude-3-5-haiku-latest", .ANTHROPIC⟩ : LLMModel)
        ≠ ⟨"[anthropic] claude-3.5-sonnet", "claude-3-5-sonnet-latest", .ANTHROPIC⟩ ∧
    (⟨"[anthropic] claude-3.5-haiku", "claude-3-5-haiku-latest", .ANTHROPIC⟩ : LLMModel).model_name
        ≠ (⟨"[anthropic] claude-3.5-sonnet", "claude-3-5-sonnet-latest", .ANTHROPIC⟩ : LLMModel).model_name :=
  ⟨by decide, by decide, by decide,
   model_name_unique
     ⟨"[anthropic] claude-3.5-haiku", "claude-3-5-haiku-latest", .ANTHROPIC⟩ (by decide)
     ⟨"[anthropic] claude-3.5-sonnet", "claude-3-5-sonnet-latest", .ANTHROPIC⟩ (by decide)
     (by decide)⟩

/-- C8: for OPENROUTER with a non-empty key, `get_model` returns a client
whose base URL is exactly "https://openrouter.ai/api/v1" and whose client
class is the one OPENAI gets (`ChatOpenAI`). -/
theorem get_model_openrouter_base_url (name key key2 : String) (env env2 : Env)
    (hk : env "OPENROUTER_API_KEY" = some key) (hne : key ≠ "")
    (hk2 : env2 "OPENAI_API_KEY" = some key2) (hne2 : key2 ≠ "") :
    ∃ c c2 : ChatClient,
      get_model name (.tag .OPENROUTER) env = (.client c, []) ∧
      c.base_url = some "https://openrouter.ai/api/v1" ∧
      get_model name (.tag .OPENAI) env2 = (.client c2, []) ∧
      c.kind = c2.kind := by
  refine ⟨⟨.ChatOpenAI, name, key, some "https://openrouter.ai/api/v1"⟩,
          ⟨.ChatOpenAI, name, key2, none⟩, ?_, rfl, ?_, rfl⟩
  · simp [get_model, resolve_provider, get_model_core, truthy, hk, hne]
  · simp [get_model, resolve_provider, get_model_core, truthy, hk2, hne2]

/-- C8 witness: with both keys set to concrete non-empty values, the
OPENROUTER client carries the fixed base URL and the same class as the
OPENAI client. -/
theorem get_model_openrouter_base_url_witness :
    (fun v => if v = "OPENROUTER_API_KEY" then some "k1" else none : Env)
        "OPENROUTER_API_KEY" = some "k1" ∧
    ("k1" : String) ≠ "" ∧
    (fun v => if v = "OPENAI_API_KEY" then some "k2" else none : Env)
        "OPENAI_API_KEY" = some "k2" ∧
    ("k2" : String) ≠ "" ∧
    ∃ c c2 : ChatClient,
      get_model "gpt-4o" (.tag .OPENROUTER)
          (fun v => if v = "OPENROUTER_API_KEY" then some "k1" else none) = (.client c, []) ∧
      c.base_url = some "https://openrouter.ai/api/v1" ∧
      get_model "gpt-4o" (.tag .OPENAI)
          (fun v => if v = "OPENAI_API_KEY" then some "k2" else none) = (.client c2, []) ∧
      c.kind = c2.kind :=
  ⟨rfl, by decide, rfl, by decide,
   get_model_openrouter_base_url "gpt-4o" "k1" "k2"
     (fun v => if v = "OPENROUTER_API_KEY" then some "k1" else none)
     (fun v => if v = "OPENAI_API_KEY" then some "k2" else none)
     rfl (by decide) rfl (by decide)⟩

/-- C9: `LLM_ORDER` is exactly the catalog projected entry by entry through
`to_choice_tuple`, in the literal insertion order of the table, with the
provider rendered as its external string value (being a constant, it is
identical on every use). -/
theorem llm_order_presentation :
    LLM_ORDER = AVAILABLE_MODELS.map LLMModel.to_choice_tuple ∧
    LLM_ORDER =
      [ ("[anthropic] claude-3.5-haiku", "claude-3-5-haiku-latest", "Anthropic"),
        ("[anthropic] claude-3.5-sonnet", "claude-3-5-sonnet-latest", "Anthropic"),
        ("[anthropic] claude-3.7-sonnet", "claude-3-7-sonnet-latest", "Anthropic"),
        ("[deepseek] deepseek-r1", "deepseek-reasoner", "DeepSeek"),
        ("[deepseek] deepseek-v3", "deepseek-chat", "DeepSeek"),
        ("[gemini] gemini-2.0-flash", "gemini-2.0-flash", "Gemini"),
        ("[gemini] gemini-2.5-pro", "gemini-2.5-pro-exp-03-25", "Gemini"),
        ("[groq] llama-3.3 70b", "llama-3.3-70b-versatile", "Groq"),
        ("[openai] gpt-4.5", "gpt-4.5-preview", "OpenAI"),
        ("[openai] gpt-4o", "gpt-4o", "OpenAI"),
        ("[openai] o1", "o1", "OpenAI"),
        ("[openai] o3-mini", "o3-mini", "OpenAI"),
        ("[openrouter] gemini-2.5-pro-exp-03-25:free",
          "google/gemini-2.5-pro-exp-03-25:free", "OpenRouter"),
        ("[openrouter] deepseek-chat-v3-0324:free",
          "deepseek/deepseek-chat-v3-0324:free", "OpenRouter") ] :=
  ⟨rfl, by decide⟩

/-- C10: the OpenRouter-hosted Gemini entry
"google/gemini-2.5-pro-exp-03-25:free" is not classified as Gemini family
(its name starts with "google/") so its JSON-mode flag is true, while the
OpenRouter-hosted DeepSeek entry "deepseek/deepseek-chat-v3-0324:free" is
classified as DeepSeek family so its JSON-mode flag is false. -/
theorem openrouter_catalog_family_flags :
    (get_model_info "google/gemini-2.5-pro-exp-03-25:free").map
        (fun m => (m.is_gemini, m.has_json_mode)) = some (false, true) ∧
    (get_model_info "deepseek/deepseek-chat-v3-0324:free").map
        (fun m => (m.is_deepseek, m.has_json_mode)) = some (true, false) := by
  decide

end Models
